import Mathlib

/-!
# Verification of the BabyWhyCry event store and crying predictor

Shallow embedding of `src/models.py`, `src/database.py` and
`src/predictor.py`.  Timestamps are rationals counting seconds on one
common timeline (the code stores `datetime` values and does arithmetic
via `total_seconds()`; float division is modelled exactly over `ℚ`).
Each record structure mirrors the SQLAlchemy model, keeping exactly the
columns the verified operations read or write.
-/

namespace BabyWhyCry

/-- `FeedingType` enum from `models.py`. -/
inductive FeedingType where
  | BREAST | BOTTLE | SOLID
deriving DecidableEq, Repr

/-- `DiaperType` enum from `models.py`. -/
inductive DiaperType where
  | WET | DIRTY | BOTH
deriving DecidableEq, Repr

/-- `CryingReason` enum from `models.py`. -/
inductive CryingReason where
  | HUNGRY | DIAPER | ATTENTION | UNKNOWN
deriving DecidableEq, Repr

/-- Row of the `feedings` table (`models.Feeding`). `endTime = none` means
the session is OPEN. -/
structure Feeding where
  id : Nat
  babyId : Nat
  ftype : FeedingType
  startTime : ℚ
  endTime : Option ℚ
  amount : Option ℚ
deriving DecidableEq, Repr

/-- Row of the `sleeps` table (`models.Sleep`). -/
structure Sleep where
  id : Nat
  babyId : Nat
  startTime : ℚ
  endTime : Option ℚ
deriving DecidableEq, Repr

/-- Row of the `diapers` table (`models.Diaper`): an instant event. -/
structure Diaper where
  id : Nat
  babyId : Nat
  dtype : DiaperType
  time : ℚ
deriving DecidableEq, Repr

/-- Row of the `cryings` table (`models.Crying`). -/
structure Crying where
  id : Nat
  babyId : Nat
  startTime : ℚ
  endTime : Option ℚ
  actualReason : Option CryingReason
deriving DecidableEq, Repr

/-- The persistent store: one list per event table. -/
structure Store where
  feedings : List Feeding
  sleeps : List Sleep
  diapers : List Diaper
  cryings : List Crying
deriving DecidableEq, Repr

def Store.empty : Store := ⟨[], [], [], []⟩

/-! ## EventStore write operations (`database.py`) -/

/-- `start_feeding`: inserts a new OPEN feeding with `start_time = now`.
The row id is supplied by the storage backend; here it is a parameter. -/
def start_feeding (s : Store) (fid babyId : Nat) (ftype : FeedingType)
    (now : ℚ) : Store :=
  { s with feedings := s.feedings ++ [⟨fid, babyId, ftype, now, none, none⟩] }

/-- `start_sleep`: inserts a new OPEN sleep with `start_time = now`. -/
def start_sleep (s : Store) (sid babyId : Nat) (now : ℚ) : Store :=
  { s with sleeps := s.sleeps ++ [⟨sid, babyId, now, none⟩] }

/-- `log_diaper_change`: inserts an instant diaper event at `now`. -/
def log_diaper_change (s : Store) (did babyId : Nat) (dtype : DiaperType)
    (now : ℚ) : Store :=
  { s with diapers := s.diapers ++ [⟨did, babyId, dtype, now⟩] }

/-- `start_crying`: inserts a new OPEN crying episode at `now`. -/
def start_crying (s : Store) (cid babyId : Nat) (now : ℚ) : Store :=
  { s with cryings := s.cryings ++ [⟨cid, babyId, now, none, none⟩] }

/-- Body of `end_feeding`: find the first row with the given id; if it is
OPEN, set `end_time := now` and overwrite `amount` when one is supplied;
if it is already CLOSED leave it alone; either way return the row found.
A missing id yields `none` (the Python function returns `None`). -/
def endFeedingList : List Feeding → Nat → Option ℚ → ℚ →
    List Feeding × Option Feeding
  | [], _, _, _ => ([], none)
  | f :: fs, fid, amt, now =>
    if f.id = fid then
      if f.endTime = none then
        let f' : Feeding :=
          { f with endTime := some now,
                   amount := match amt with | some a => some a | none => f.amount }
        (f' :: fs, some f')
      else (f :: fs, some f)
    else
      let r := endFeedingList fs fid amt now
      (f :: r.1, r.2)

/-- `end_feeding`: returns the updated store and the returned row. -/
def end_feeding (s : Store) (fid : Nat) (amt : Option ℚ) (now : ℚ) :
    Store × Option Feeding :=
  let r := endFeedingList s.feedings fid amt now
  ({ s with feedings := r.1 }, r.2)

/-- Body of `end_sleep` (same first-match-then-close shape). -/
def endSleepList : List Sleep → Nat → ℚ → List Sleep × Option Sleep
  | [], _, _ => ([], none)
  | sl :: sls, sid, now =>
    if sl.id = sid then
      if sl.endTime = none then
        let sl' : Sleep := { sl with endTime := some now }
        (sl' :: sls, some sl')
      else (sl :: sls, some sl)
    else
      let r := endSleepList sls sid now
      (sl :: r.1, r.2)

/-- `end_sleep`. -/
def end_sleep (s : Store) (sid : Nat) (now : ℚ) : Store × Option Sleep :=
  let r := endSleepList s.sleeps sid now
  ({ s with sleeps := r.1 }, r.2)

/-- Body of `end_crying`: additionally stores the caller's
`actual_reason` when one is supplied. -/
def endCryingList : List Crying → Nat → Option CryingReason → ℚ →
    List Crying × Option Crying
  | [], _, _, _ => ([], none)
  | c :: cs, cid, reason, now =>
    if c.id = cid then
      if c.endTime = none then
        let c' : Crying :=
          { c with endTime := some now,
                   actualReason := match reason with
                     | some r => some r | none => c.actualReason }
        (c' :: cs, some c')
      else (c :: cs, some c)
    else
      let r := endCryingList cs cid reason now
      (c :: r.1, r.2)

/-- `end_crying`. -/
def end_crying (s : Store) (cid : Nat) (reason : Option CryingReason)
    (now : ℚ) : Store × Option Crying :=
  let r := endCryingList s.cryings cid reason now
  ({ s with cryings := r.1 }, r.2)

/-! ## Event retrieval (`get_recent_events` in `database.py`) -/

/-- Payload of one entry of the event dictionaries built by
`get_recent_events` (the `"data"` key). -/
inductive EventData where
  | feeding (f : Feeding)
  | sleep (sl : Sleep)
  | diaper (d : Diaper)
  | crying (c : Crying)
deriving DecidableEq, Repr

/-- One event dictionary: `{"type": ..., "time": ..., "data": ...}`.
The `"type"` string is determined by the payload, see `Event.etype`. -/
structure Event where
  time : ℚ
  data : EventData
deriving DecidableEq, Repr

/-- The `"type"` string stored alongside each payload kind. -/
def Event.etype (e : Event) : String :=
  match e.data with
  | .feeding _ => "feeding"
  | .sleep _ => "sleep"
  | .diaper _ => "diaper"
  | .crying _ => "crying"

/-- Stable insertion into a list kept in descending `key` order
(models the `ORDER BY ... DESC` of the per-table queries and the final
`events.sort(key=..., reverse=True)`). -/
def insertDescBy (key : α → ℚ) (a : α) : List α → List α
  | [] => [a]
  | b :: bs => if key b ≤ key a then a :: b :: bs else b :: insertDescBy key a bs

/-- Stable sort into descending `key` order. -/
def sortDescBy (key : α → ℚ) : List α → List α
  | [] => []
  | a :: as => insertDescBy key a (sortDescBy key as)

/-- The per-table query of `get_recent_events` for feedings:
`baby_id == babyId AND start_time >= since`, descending by
`start_time`, `LIMIT limit`, each row wrapped as an event dict with
`time = start_time`. -/
def feedingEvents (s : Store) (babyId limit : Nat) (since : ℚ) : List Event :=
  ((sortDescBy (·.startTime)
      (s.feedings.filter fun f => f.babyId = babyId ∧ since ≤ f.startTime)).take limit).map
    fun f => ⟨f.startTime, .feeding f⟩

/-- Per-table query for sleeps (anchored at `start_time`). -/
def sleepEvents (s : Store) (babyId limit : Nat) (since : ℚ) : List Event :=
  ((sortDescBy (·.startTime)
      (s.sleeps.filter fun sl => sl.babyId = babyId ∧ since ≤ sl.startTime)).take limit).map
    fun sl => ⟨sl.startTime, .sleep sl⟩

/-- Per-table query for diapers (anchored at `time`). -/
def diaperEvents (s : Store) (babyId limit : Nat) (since : ℚ) : List Event :=
  ((sortDescBy (·.time)
      (s.diapers.filter fun d => d.babyId = babyId ∧ since ≤ d.time)).take limit).map
    fun d => ⟨d.time, .diaper d⟩

/-- Per-table query for crying episodes (anchored at `start_time`). -/
def cryingEvents (s : Store) (babyId limit : Nat) (since : ℚ) : List Event :=
  ((sortDescBy (·.startTime)
      (s.cryings.filter fun c => c.babyId = babyId ∧ since ≤ c.startTime)).take limit).map
    fun c => ⟨c.startTime, .crying c⟩

/-- `get_recent_events(db, baby_id, limit, days)`: merge the four
per-table results (appended in the source order feeding, sleep, diaper,
crying), sort by `time` descending, truncate to `limit`.
`since = now - days*86400` as `timedelta(days=days)` is in seconds. -/
def get_recent_events (s : Store) (babyId : Nat) (limit : Nat) (days : ℚ)
    (now : ℚ) : List Event :=
  let since := now - days * 86400
  let events := feedingEvents s babyId limit since
    ++ sleepEvents s babyId limit since
    ++ diaperEvents s babyId limit since
    ++ cryingEvents s babyId limit since
  (sortDescBy (·.time) events).take limit

/-! ## The crying predictor (`predictor.py`) -/

def HUNGER_THRESHOLD_HOURS : ℚ := 5/2
def DIAPER_THRESHOLD_HOURS : ℚ := 3
def ATTENTION_THRESHOLD_MINUTES : ℚ := 90

/-- `_get_last_event_by_type`: first event of the given type in the
(already descending-sorted) event list, `none` when absent. -/
def lastEventOfType (events : List Event) (ty : String) : Option Event :=
  events.find? fun e => e.etype = ty

/-- Hunger branch of `CryingPredictor.predict`, as a function of the
anchor time of the selected feeding event (its `"time"` key):
over-threshold ramp capped at 100, under-threshold ramp floored at 0,
cold-start default 90. -/
def hungerScore (lastT : Option ℚ) (now : ℚ) : ℚ :=
  match lastT with
  | some t =>
    let elapsed := (now - t) / 3600
    if elapsed > HUNGER_THRESHOLD_HOURS then
      min 100 ((elapsed / HUNGER_THRESHOLD_HOURS) * 70)
    else
      max 0 ((elapsed / HUNGER_THRESHOLD_HOURS) * 40)
  | none => 90

/-- Diaper branch of `predict`, cold-start default 80. -/
def diaperScore (lastT : Option ℚ) (now : ℚ) : ℚ :=
  match lastT with
  | some t =>
    let elapsed := (now - t) / 3600
    if elapsed > DIAPER_THRESHOLD_HOURS then
      min 90 ((elapsed / DIAPER_THRESHOLD_HOURS) * 70)
    else
      max 0 ((elapsed / DIAPER_THRESHOLD_HOURS) * 30)
  | none => 80

/-- Attention branch of `predict`, as a function of the selected sleep
event's `end_time` (`some none` = a sleep record exists but is still
open, scored 10; `none` = no sleep record, cold-start default 50). -/
def attentionScore (lastSleepEnd : Option (Option ℚ)) (now : ℚ) : ℚ :=
  match lastSleepEnd with
  | some (some endT) =>
    let awake := (now - endT) / 60
    if awake > ATTENTION_THRESHOLD_MINUTES then
      min 85 ((awake / ATTENTION_THRESHOLD_MINUTES) * 65)
    else
      max 10 ((awake / ATTENTION_THRESHOLD_MINUTES) * 50)
  | some none => 10
  | none => 50

/-- The `end_time` read off a sleep event's `"data"` payload
(`last_sleep["data"].end_time`); only ever applied to events whose
payload is a sleep record. -/
def sleepEndOf (e : Event) : Option ℚ :=
  match e.data with
  | .sleep sl => sl.endTime
  | _ => none

/-- `max(scores, key=scores.get)` over the dict built in insertion order
HUNGRY, DIAPER, ATTENTION: Python's `max` keeps the earlier item unless
a later one is strictly greater, so ties go to the earlier reason.
Returns the winning reason with its score. -/
def pickBest (h d a : ℚ) : CryingReason × ℚ :=
  let r1 : CryingReason × ℚ :=
    if d > h then (CryingReason.DIAPER, d) else (CryingReason.HUNGRY, h)
  if a > r1.2 then (CryingReason.ATTENTION, a) else r1

/-- `second_max`: maximum score among the reasons other than the
predicted one (the scores dict always holds the three reasons, so the
Python `default=0` is never used; `UNKNOWN` is never a dict key). -/
def secondOf (h d a : ℚ) : CryingReason → ℚ
  | .HUNGRY => max d a
  | .DIAPER => max h a
  | .ATTENTION => max h d
  | .UNKNOWN => 0

/-- Anchor time of the predictor's selected feeding event. -/
def lastFeedingTime (s : Store) (babyId : Nat) (now : ℚ) : Option ℚ :=
  (lastEventOfType (get_recent_events s babyId 20 7 now) "feeding").map (·.time)

/-- Anchor time of the predictor's selected diaper event. -/
def lastDiaperTime (s : Store) (babyId : Nat) (now : ℚ) : Option ℚ :=
  (lastEventOfType (get_recent_events s babyId 20 7 now) "diaper").map (·.time)

/-- `end_time` of the predictor's selected sleep event (`none` when no
sleep event was selected). -/
def lastSleepEnd (s : Store) (babyId : Nat) (now : ℚ) : Option (Option ℚ) :=
  (lastEventOfType (get_recent_events s babyId 20 7 now) "sleep").map sleepEndOf

/-- `CryingPredictor.predict`: fetch the 20 most recent events of the
last 7 days, score the three causes, pick the argmax in dict order and
compute `min(95, max(30, (max_score - second_max) + max_score / 2))`.
(`_adjust_scores_from_history` is a no-op placeholder in the source.) -/
def predict (s : Store) (babyId : Nat) (now : ℚ) : CryingReason × ℚ :=
  let h := hungerScore (lastFeedingTime s babyId now) now
  let d := diaperScore (lastDiaperTime s babyId now) now
  let a := attentionScore (lastSleepEnd s babyId now) now
  let best := pickBest h d a
  let sm := secondOf h d a best.1
  (best.1, min 95 (max 30 ((best.2 - sm) + best.2 / 2)))

/-! ## Time-window aggregation (`get_sleep_duration` in `database.py`) -/

/-- Accumulator of `get_sleep_duration`'s loop: total seconds plus the
completed/ongoing session counters. -/
structure SleepTotals where
  totalSeconds : ℚ
  completed : Nat
  ongoing : Nat
deriving DecidableEq, Repr

/-- Duration in seconds contributed by one sleep session at query time
`now`: `(end_time or now) - start_time`. -/
def sessionSeconds (now : ℚ) (sl : Sleep) : ℚ :=
  match sl.endTime with
  | some e => e - sl.startTime
  | none => now - sl.startTime

/-- The sessions `get_sleep_duration` aggregates: `baby_id == babyId AND
start_time >= windowStart AND start_time <= windowEnd`. -/
def sleepSessionsIn (s : Store) (babyId : Nat) (windowStart windowEnd : ℚ) :
    List Sleep :=
  s.sleeps.filter fun sl =>
    sl.babyId = babyId ∧ windowStart ≤ sl.startTime ∧ sl.startTime ≤ windowEnd

/-- Loop body of `get_sleep_duration`: a closed session adds
`end - start` seconds and bumps `completed_sessions`; an open one adds
`now - start` and bumps `ongoing_sessions`. -/
def get_sleep_duration (s : Store) (babyId : Nat)
    (windowStart windowEnd now : ℚ) : SleepTotals :=
  (sleepSessionsIn s babyId windowStart windowEnd).foldl
    (fun acc sl =>
      match sl.endTime with
      | some e =>
        { acc with
          totalSeconds := acc.totalSeconds + (e - sl.startTime)
          completed := acc.completed + 1 }
      | none =>
        { acc with
          totalSeconds := acc.totalSeconds + (now - sl.startTime)
          ongoing := acc.ongoing + 1 })
    ⟨0, 0, 0⟩

/-! ## State machine and invariants -/

/-- One write operation of the event store performed at instant `now`,
exactly the mutators of `database.py` relevant to session lifecycle. -/
inductive Step : Store → ℚ → Store → Prop
  | startFeeding (s : Store) (now : ℚ) (fid babyId : Nat) (ft : FeedingType) :
      Step s now (start_feeding s fid babyId ft now)
  | endFeeding (s : Store) (now : ℚ) (fid : Nat) (amt : Option ℚ) :
      Step s now (end_feeding s fid amt now).1
  | startSleep (s : Store) (now : ℚ) (sid babyId : Nat) :
      Step s now (start_sleep s sid babyId now)
  | endSleep (s : Store) (now : ℚ) (sid : Nat) :
      Step s now (end_sleep s sid now).1
  | logDiaper (s : Store) (now : ℚ) (did babyId : Nat) (dt : DiaperType) :
      Step s now (log_diaper_change s did babyId dt now)
  | startCrying (s : Store) (now : ℚ) (cid babyId : Nat) :
      Step s now (start_crying s cid babyId now)
  | endCrying (s : Store) (now : ℚ) (cid : Nat) (r : Option CryingReason) :
      Step s now (end_crying s cid r now).1

/-- The closed-session invariant: whenever both timestamps of a session
record are set, `end_time ≥ start_time`. -/
def SessionInv (s : Store) : Prop :=
  (∀ f ∈ s.feedings, ∀ e, f.endTime = some e → f.startTime ≤ e) ∧
  (∀ sl ∈ s.sleeps, ∀ e, sl.endTime = some e → sl.startTime ≤ e) ∧
  (∀ c ∈ s.cryings, ∀ e, c.endTime = some e → c.startTime ≤ e)

/-- All timestamps in the store are at most `t`; operations executed at
`now ≥ t` can then only close a session at or after its start. -/
def TimesLE (s : Store) (t : ℚ) : Prop :=
  (∀ f ∈ s.feedings, f.startTime ≤ t ∧ ∀ e, f.endTime = some e → e ≤ t) ∧
  (∀ sl ∈ s.sleeps, sl.startTime ≤ t ∧ ∀ e, sl.endTime = some e → e ≤ t) ∧
  (∀ d ∈ s.diapers, d.time ≤ t) ∧
  (∀ c ∈ s.cryings, c.startTime ≤ t ∧ ∀ e, c.endTime = some e → e ≤ t)

/-- Provenance of an event produced by `get_recent_events`: it wraps a
store record of the queried baby whose anchor time is within the
lookback window, and its `"time"` key is that anchor. -/
def EventFrom (s : Store) (babyId : Nat) (since : ℚ) (e : Event) : Prop :=
  (∃ f, f ∈ s.feedings ∧ f.babyId = babyId ∧ since ≤ f.startTime ∧
    e = ⟨f.startTime, .feeding f⟩) ∨
  (∃ sl, sl ∈ s.sleeps ∧ sl.babyId = babyId ∧ since ≤ sl.startTime ∧
    e = ⟨sl.startTime, .sleep sl⟩) ∨
  (∃ d, d ∈ s.diapers ∧ d.babyId = babyId ∧ since ≤ d.time ∧
    e = ⟨d.time, .diaper d⟩) ∨
  (∃ c, c ∈ s.cryings ∧ c.babyId = babyId ∧ since ≤ c.startTime ∧
    e = ⟨c.startTime, .crying c⟩)

/-- Modelled from the spec: the hunger ramp as §4.3 of the spec words
it, anchored at "2.5 hours since last feeding **end** (or start if still
open)", with the 70-ramp applying "**at**/above" the threshold.  Used
only to compare the spec's sentence against the code's `hungerScore`,
which anchors at `start_time` and uses the 70-ramp strictly above the
threshold. -/
def hungerScoreSpec (lastFeeding : Feeding) (now : ℚ) : ℚ :=
  let anchor := match lastFeeding.endTime with
    | some e => e
    | none => lastFeeding.startTime
  let elapsed := (now - anchor) / 3600
  if elapsed < HUNGER_THRESHOLD_HOURS then
    40 * (elapsed / HUNGER_THRESHOLD_HOURS)
  else
    min 100 (70 * (elapsed / HUNGER_THRESHOLD_HOURS))

/-! ## Lemmas about the descending sort -/

theorem mem_insertDescBy {key : α → ℚ} {a x : α} {l : List α} :
    x ∈ insertDescBy key a l ↔ x = a ∨ x ∈ l := by
  induction l with
  | nil => simp [insertDescBy]
  | cons b bs ih =>
    by_cases hb : key b ≤ key a
    · simp [insertDescBy, hb]
    · simp only [insertDescBy, if_neg hb, List.mem_cons, ih]
      tauto

theorem mem_sortDescBy {key : α → ℚ} {x : α} {l : List α} :
    x ∈ sortDescBy key l ↔ x ∈ l := by
  induction l with
  | nil => simp [sortDescBy]
  | cons a as ih => simp [sortDescBy, mem_insertDescBy, ih]

theorem pairwise_insertDescBy {key : α → ℚ} {a : α} {l : List α}
    (h : l.Pairwise (fun x y => key y ≤ key x)) :
    (insertDescBy key a l).Pairwise (fun x y => key y ≤ key x) := by
  induction l with
  | nil => simp [insertDescBy]
  | cons b bs ih =>
    rcases List.pairwise_cons.mp h with ⟨hb, hbs⟩
    by_cases hba : key b ≤ key a
    · rw [insertDescBy, if_pos hba]
      refine List.pairwise_cons.mpr ⟨?_, h⟩
      intro y hy
      rcases List.mem_cons.mp hy with rfl | hy
      · exact hba
      · exact le_trans (hb y hy) hba
    · rw [insertDescBy, if_neg hba]
      refine List.pairwise_cons.mpr ⟨?_, ih hbs⟩
      intro y hy
      rcases mem_insertDescBy.mp hy with rfl | hy
      · exact le_of_lt (lt_of_not_le hba)
      · exact hb y hy

theorem pairwise_sortDescBy {key : α → ℚ} {l : List α} :
    (sortDescBy key l).Pairwise (fun x y => key y ≤ key x) := by
  induction l with
  | nil => simp [sortDescBy]
  | cons a as ih => exact pairwise_insertDescBy ih

/-! ## Provenance and shape of `get_recent_events` output -/

theorem eventFrom_of_mem_get_recent_events
    {s : Store} {babyId limit : Nat} {days now : ℚ} {e : Event}
    (he : e ∈ get_recent_events s babyId limit days now) :
    EventFrom s babyId (now - days * 86400) e := by
  unfold get_recent_events at he
  have he2 := mem_sortDescBy.mp (List.mem_of_mem_take he)
  simp only [List.mem_append] at he2
  rcases he2 with ((hf | hs) | hd) | hc
  · left
    unfold feedingEvents at hf
    rcases List.mem_map.mp hf with ⟨f, hfmem, rfl⟩
    have := mem_sortDescBy.mp (List.mem_of_mem_take hfmem)
    rcases List.mem_filter.mp this with ⟨hmem, hprop⟩
    simp only [decide_eq_true_eq] at hprop
    exact ⟨f, hmem, hprop.1, hprop.2, rfl⟩
  · right; left
    unfold sleepEvents at hs
    rcases List.mem_map.mp hs with ⟨sl, hslmem, rfl⟩
    have := mem_sortDescBy.mp (List.mem_of_mem_take hslmem)
    rcases List.mem_filter.mp this with ⟨hmem, hprop⟩
    simp only [decide_eq_true_eq] at hprop
    exact ⟨sl, hmem, hprop.1, hprop.2, rfl⟩
  · right; right; left
    unfold diaperEvents at hd
    rcases List.mem_map.mp hd with ⟨d, hdmem, rfl⟩
    have := mem_sortDescBy.mp (List.mem_of_mem_take hdmem)
    rcases List.mem_filter.mp this with ⟨hmem, hprop⟩
    simp only [decide_eq_true_eq] at hprop
    exact ⟨d, hmem, hprop.1, hprop.2, rfl⟩
  · right; right; right
    unfold cryingEvents at hc
    rcases List.mem_map.mp hc with ⟨c, hcmem, rfl⟩
    have := mem_sortDescBy.mp (List.mem_of_mem_take hcmem)
    rcases List.mem_filter.mp this with ⟨hmem, hprop⟩
    simp only [decide_eq_true_eq] at hprop
    exact ⟨c, hmem, hprop.1, hprop.2, rfl⟩

/-! ## Lemmas about the end-session operations -/

theorem endFeedingList_of_find?_none {l : List Feeding} {fid : Nat}
    (amt : Option ℚ) (now : ℚ)
    (h : l.find? (fun x => x.id = fid) = none) :
    endFeedingList l fid amt now = (l, none) := by
  induction l with
  | nil => rfl
  | cons f fs ih =>
    by_cases hid : f.id = fid
    · rw [List.find?_cons_of_pos _ (by simpa using hid)] at h
      simp at h
    · rw [List.find?_cons_of_neg _ (by simpa using hid)] at h
      simp only [endFeedingList, if_neg hid, ih h]

theorem endSleepList_of_find?_none {l : List Sleep} {sid : Nat} (now : ℚ)
    (h : l.find? (fun x => x.id = sid) = none) :
    endSleepList l sid now = (l, none) := by
  induction l with
  | nil => rfl
  | cons sl sls ih =>
    by_cases hid : sl.id = sid
    · rw [List.find?_cons_of_pos _ (by simpa using hid)] at h
      simp at h
    · rw [List.find?_cons_of_neg _ (by simpa using hid)] at h
      simp only [endSleepList, if_neg hid, ih h]

theorem endCryingList_of_find?_none {l : List Crying} {cid : Nat}
    (r : Option CryingReason) (now : ℚ)
    (h : l.find? (fun x => x.id = cid) = none) :
    endCryingList l cid r now = (l, none) := by
  induction l with
  | nil => rfl
  | cons c cs ih =>
    by_cases hid : c.id = cid
    · rw [List.find?_cons_of_pos _ (by simpa using hid)] at h
      simp at h
    · rw [List.find?_cons_of_neg _ (by simpa using hid)] at h
      simp only [endCryingList, if_neg hid, ih h]

theorem endFeedingList_of_find?_closed {l : List Feeding} {fid : Nat}
    {f : Feeding} (amt : Option ℚ) (now : ℚ)
    (h : l.find? (fun x => x.id = fid) = some f) (hc : f.endTime ≠ none) :
    endFeedingList l fid amt now = (l, some f) := by
  induction l with
  | nil => simp at h
  | cons f₀ fs ih =>
    by_cases hid : f₀.id = fid
    · rw [List.find?_cons_of_pos _ (by simpa using hid)] at h
      obtain rfl : f₀ = f := by simpa using h
      simp only [endFeedingList, if_pos hid, if_neg hc]
    · rw [List.find?_cons_of_neg _ (by simpa using hid)] at h
      simp only [endFeedingList, if_neg hid, ih h]

theorem endSleepList_of_find?_closed {l : List Sleep} {sid : Nat}
    {sl : Sleep} (now : ℚ)
    (h : l.find? (fun x => x.id = sid) = some sl) (hc : sl.endTime ≠ none) :
    endSleepList l sid now = (l, some sl) := by
  induction l with
  | nil => simp at h
  | cons sl₀ sls ih =>
    by_cases hid : sl₀.id = sid
    · rw [List.find?_cons_of_pos _ (by simpa using hid)] at h
      obtain rfl : sl₀ = sl := by simpa using h
      simp only [endSleepList, if_pos hid, if_neg hc]
    · rw [List.find?_cons_of_neg _ (by simpa using hid)] at h
      simp only [endSleepList, if_neg hid, ih h]

theorem mem_endFeedingList {l : List Feeding} {fid : Nat} {amt : Option ℚ}
    {now : ℚ} {y : Feeding} (hy : y ∈ (endFeedingList l fid amt now).1) :
    y ∈ l ∨ ∃ x ∈ l, x.endTime = none ∧ y.startTime = x.startTime ∧
      y.endTime = some now := by
  induction l with
  | nil => simp [endFeedingList] at hy
  | cons f fs ih =>
    by_cases hid : f.id = fid
    · by_cases hopen : f.endTime = none
      · simp only [endFeedingList, if_pos hid, if_pos hopen] at hy
        rcases List.mem_cons.mp hy with rfl | hy
        · exact Or.inr ⟨f, List.mem_cons_self f fs, hopen, rfl, rfl⟩
        · exact Or.inl (List.mem_cons_of_mem f hy)
      · simp only [endFeedingList, if_pos hid, if_neg hopen] at hy
        exact Or.inl hy
    · simp only [endFeedingList, if_neg hid] at hy
      rcases List.mem_cons.mp hy with rfl | hy
      · exact Or.inl (List.mem_cons_self y fs)
      · rcases ih hy with h | ⟨x, hx, hxo, hst, hend⟩
        · exact Or.inl (List.mem_cons_of_mem f h)
        · exact Or.inr ⟨x, List.mem_cons_of_mem f hx, hxo, hst, hend⟩

theorem mem_endSleepList {l : List Sleep} {sid : Nat} {now : ℚ} {y : Sleep}
    (hy : y ∈ (endSleepList l sid now).1) :
    y ∈ l ∨ ∃ x ∈ l, x.endTime = none ∧ y.startTime = x.startTime ∧
      y.endTime = some now := by
  induction l with
  | nil => simp [endSleepList] at hy
  | cons sl sls ih =>
    by_cases hid : sl.id = sid
    · by_cases hopen : sl.endTime = none
      · simp only [endSleepList, if_pos hid, if_pos hopen] at hy
        rcases List.mem_cons.mp hy with rfl | hy
        · exact Or.inr ⟨sl, List.mem_cons_self sl sls, hopen, rfl, rfl⟩
        · exact Or.inl (List.mem_cons_of_mem sl hy)
      · simp only [endSleepList, if_pos hid, if_neg hopen] at hy
        exact Or.inl hy
    · simp only [endSleepList, if_neg hid] at hy
      rcases List.mem_cons.mp hy with rfl | hy
      · exact Or.inl (List.mem_cons_self y sls)
      · rcases ih hy with h | ⟨x, hx, hxo, hst, hend⟩
        · exact Or.inl (List.mem_cons_of_mem sl h)
        · exact Or.inr ⟨x, List.mem_cons_of_mem sl hx, hxo, hst, hend⟩

theorem mem_endCryingList {l : List Crying} {cid : Nat}
    {r : Option CryingReason} {now : ℚ} {y : Crying}
    (hy : y ∈ (endCryingList l cid r now).1) :
    y ∈ l ∨ ∃ x ∈ l, x.endTime = none ∧ y.startTime = x.startTime ∧
      y.endTime = some now := by
  induction l with
  | nil => simp [endCryingList] at hy
  | cons c cs ih =>
    by_cases hid : c.id = cid
    · by_cases hopen : c.endTime = none
      · simp only [endCryingList, if_pos hid, if_pos hopen] at hy
        rcases List.mem_cons.mp hy with rfl | hy
        · exact Or.inr ⟨c, List.mem_cons_self c cs, hopen, rfl, rfl⟩
        · exact Or.inl (List.mem_cons_of_mem c hy)
      · simp only [endCryingList, if_pos hid, if_neg hopen] at hy
        exact Or.inl hy
    · simp only [endCryingList, if_neg hid] at hy
      rcases List.mem_cons.mp hy with rfl | hy
      · exact Or.inl (List.mem_cons_self y cs)
      · rcases ih hy with h | ⟨x, hx, hxo, hst, hend⟩
        · exact Or.inl (List.mem_cons_of_mem c h)
        · exact Or.inr ⟨x, List.mem_cons_of_mem c hx, hxo, hst, hend⟩

/-! ## Claim theorems -/

/-- C6 (counterexample): for an id absent from the store, the end
operations return `none` silently — there is no typed `NotFound`
failure, contradicting the claim that a null result is never returned. -/
theorem endSession_missing_silent_none :
    end_feeding Store.empty 1 none 0 = (Store.empty, none) ∧
    end_sleep Store.empty 1 0 = (Store.empty, none) ∧
    end_crying Store.empty 1 none 0 = (Store.empty, none) :=
  ⟨rfl, rfl, rfl⟩

/-- C6 (amended): for every session id that does not exist in the store,
each end operation leaves the store unchanged and returns `none` (a null
result), rather than failing with a typed `NotFound` error. -/
theorem endSession_missing_id_returns_none (s : Store) (fid sid cid : Nat)
    (amt : Option ℚ) (r : Option CryingReason) (now : ℚ)
    (hf : s.feedings.find? (fun x => x.id = fid) = none)
    (hs : s.sleeps.find? (fun x => x.id = sid) = none)
    (hc : s.cryings.find? (fun x => x.id = cid) = none) :
    end_feeding s fid amt now = (s, none) ∧
    end_sleep s sid now = (s, none) ∧
    end_crying s cid r now = (s, none) := by
  refine ⟨?_, ?_, ?_⟩
  · simp [end_feeding, endFeedingList_of_find?_none amt now hf]
  · simp [end_sleep, endSleepList_of_find?_none now hs]
  · simp [end_crying, endCryingList_of_find?_none r now hc]

/-- C6 witness: the amended statement instantiated on the empty store. -/
theorem endSession_missing_id_returns_none_witness :
    end_feeding Store.empty 5 none 0 = (Store.empty, none) ∧
    end_sleep Store.empty 5 0 = (Store.empty, none) ∧
    end_crying Store.empty 5 none 0 = (Store.empty, none) :=
  endSession_missing_id_returns_none Store.empty 5 5 5 none none 0 rfl rfl rfl

/-- C5: ending an already-CLOSED feeding or sleep session is an
idempotent no-op — the store is unchanged and the existing record is
returned as-is (whatever closing attributes are supplied), so a second
call on the same id yields identical results. -/
theorem endSession_idempotent_when_closed (s : Store) (fid sid : Nat)
    (amt : Option ℚ) (now now' : ℚ) (f : Feeding) (sl : Sleep)
    (hf : s.feedings.find? (fun x => x.id = fid) = some f)
    (hfc : f.endTime ≠ none)
    (hs : s.sleeps.find? (fun x => x.id = sid) = some sl)
    (hsc : sl.endTime ≠ none) :
    end_feeding s fid amt now = (s, some f) ∧
    end_sleep s sid now = (s, some sl) ∧
    end_feeding (end_feeding s fid amt now).1 fid amt now' = (s, some f) ∧
    end_sleep (end_sleep s sid now).1 sid now' = (s, some sl) := by
  have h1 : end_feeding s fid amt now = (s, some f) := by
    simp [end_feeding, endFeedingList_of_find?_closed amt now hf hfc]
  have h2 : end_sleep s sid now = (s, some sl) := by
    simp [end_sleep, endSleepList_of_find?_closed now hs hsc]
  refine ⟨h1, h2, ?_, ?_⟩
  · rw [h1]
    simp [end_feeding, endFeedingList_of_find?_closed amt now' hf hfc]
  · rw [h2]
    simp [end_sleep, endSleepList_of_find?_closed now' hs hsc]

/-- C5 witness: a store holding one closed feeding and one closed sleep. -/
theorem endSession_idempotent_when_closed_witness :
    end_feeding ⟨[⟨1, 1, .BOTTLE, 0, some 60, some 5⟩], [⟨2, 1, 0, some 30⟩], [], []⟩
      1 (some 9) 100 =
      (⟨[⟨1, 1, .BOTTLE, 0, some 60, some 5⟩], [⟨2, 1, 0, some 30⟩], [], []⟩,
       some ⟨1, 1, .BOTTLE, 0, some 60, some 5⟩) ∧
    end_sleep ⟨[⟨1, 1, .BOTTLE, 0, some 60, some 5⟩], [⟨2, 1, 0, some 30⟩], [], []⟩
      2 100 =
      (⟨[⟨1, 1, .BOTTLE, 0, some 60, some 5⟩], [⟨2, 1, 0, some 30⟩], [], []⟩,
       some ⟨2, 1, 0, some 30⟩) ∧
    end_feeding (end_feeding ⟨[⟨1, 1, .BOTTLE, 0, some 60, some 5⟩], [⟨2, 1, 0, some 30⟩], [], []⟩
      1 (some 9) 100).1 1 (some 9) 200 =
      (⟨[⟨1, 1, .BOTTLE, 0, some 60, some 5⟩], [⟨2, 1, 0, some 30⟩], [], []⟩,
       some ⟨1, 1, .BOTTLE, 0, some 60, some 5⟩) ∧
    end_sleep (end_sleep ⟨[⟨1, 1, .BOTTLE, 0, some 60, some 5⟩], [⟨2, 1, 0, some 30⟩], [], []⟩
      2 100).1 2 200 =
      (⟨[⟨1, 1, .BOTTLE, 0, some 60, some 5⟩], [⟨2, 1, 0, some 30⟩], [], []⟩,
       some ⟨2, 1, 0, some 30⟩) :=
  endSession_idempotent_when_closed _ 1 2 (some 9) 100 200 _ _
    (by simp [List.find?]) (by simp) (by simp [List.find?]) (by simp)

/-- C7 (counterexample): with a feeding and a diaper change logged at
the same instant, `get_recent_events` returns two events with equal
anchor times, so its output is not *strictly* descending; and the query
has no upper time filter, so a store row whose anchor lies in the future
of `now` is returned outside `[now - W, now]`. -/
theorem recentEvents_strict_desc_counterexample :
    ¬ (get_recent_events ⟨[⟨1, 1, .BOTTLE, 0, none, none⟩], [],
        [⟨1, 1, .WET, 0⟩], []⟩ 1 10 7 0).Pairwise
      (fun x y => y.time < x.time) ∧
    ¬ (∀ e ∈ get_recent_events ⟨[⟨3, 1, .BOTTLE, 100, none, none⟩], [], [], []⟩
        1 10 7 0, e.time ≤ 0) := by
  constructor
  · have hev : get_recent_events ⟨[⟨1, 1, .BOTTLE, 0, none, none⟩], [],
        [⟨1, 1, .WET, 0⟩], []⟩ 1 10 7 0 =
        [⟨0, .feeding ⟨1, 1, .BOTTLE, 0, none, none⟩⟩, ⟨0, .diaper ⟨1, 1, .WET, 0⟩⟩] := by
      norm_num [get_recent_events, feedingEvents, sleepEvents, diaperEvents,
        cryingEvents, sortDescBy, insertDescBy, List.filter]
    rw [hev]
    simp [List.pairwise_cons]
  · have hev : get_recent_events ⟨[⟨3, 1, .BOTTLE, 100, none, none⟩], [], [], []⟩
        1 10 7 0 = [⟨100, .feeding ⟨3, 1, .BOTTLE, 100, none, none⟩⟩] := by
      norm_num [get_recent_events, feedingEvents, sleepEvents, diaperEvents,
        cryingEvents, sortDescBy, insertDescBy, List.filter]
    rw [hev]
    norm_num

/-- C7 (amended): `get_recent_events` returns at most `limit` items,
sorted in (non-strictly) descending anchor-time order — events sharing
an anchor time may appear adjacently — and when every timestamp in the
store is at most `now`, every returned event's anchor time lies within
`[now - days*86400, now]`. -/
theorem recentEvents_bounded_sorted (s : Store) (babyId limit : Nat)
    (days now : ℚ) (hb : TimesLE s now) :
    (get_recent_events s babyId limit days now).length ≤ limit ∧
    (get_recent_events s babyId limit days now).Pairwise
      (fun x y => y.time ≤ x.time) ∧
    ∀ e ∈ get_recent_events s babyId limit days now,
      now - days * 86400 ≤ e.time ∧ e.time ≤ now := by
  refine ⟨List.length_take_le _ _, ?_, ?_⟩
  · exact List.Pairwise.sublist (List.take_sublist _ _) pairwise_sortDescBy
  · intro e he
    rcases eventFrom_of_mem_get_recent_events he with
      ⟨f, hmem, _, hsince, rfl⟩ | ⟨sl, hmem, _, hsince, rfl⟩ |
      ⟨d, hmem, _, hsince, rfl⟩ | ⟨c, hmem, _, hsince, rfl⟩
    · exact ⟨hsince, (hb.1 f hmem).1⟩
    · exact ⟨hsince, (hb.2.1 sl hmem).1⟩
    · exact ⟨hsince, hb.2.2.1 d hmem⟩
    · exact ⟨hsince, (hb.2.2.2 c hmem).1⟩

/-- C7 witness: the amended statement on a one-feeding store. -/
theorem recentEvents_bounded_sorted_witness :
    (get_recent_events ⟨[⟨1, 1, .BOTTLE, 0, none, none⟩], [], [], []⟩ 1 10 7 0).length ≤ 10 ∧
    (get_recent_events ⟨[⟨1, 1, .BOTTLE, 0, none, none⟩], [], [], []⟩ 1 10 7 0).Pairwise
      (fun x y => y.time ≤ x.time) ∧
    ∀ e ∈ get_recent_events ⟨[⟨1, 1, .BOTTLE, 0, none, none⟩], [], [], []⟩ 1 10 7 0,
      (0:ℚ) - 7 * 86400 ≤ e.time ∧ e.time ≤ 0 :=
  recentEvents_bounded_sorted _ 1 10 7 0
    (by refine ⟨?_, ?_, ?_, ?_⟩ <;> simp)

/-- C8: the total sleep duration over a window is the sum, over all
sessions whose `start_time` falls in the window, of `end - start` for
closed sessions and `now - start` for OPEN ones; and an OPEN session's
contribution strictly increases as the query-time `now` advances. -/
theorem totalDuration_eq_sum_and_open_monotone (s : Store) (babyId : Nat)
    (ws we now : ℚ) :
    (get_sleep_duration s babyId ws we now).totalSeconds =
      ((sleepSessionsIn s babyId ws we).map (sessionSeconds now)).sum ∧
    ∀ sl : Sleep, sl.endTime = none → ∀ now₁ now₂ : ℚ, now₁ < now₂ →
      sessionSeconds now₁ sl < sessionSeconds now₂ sl := by
  have key : ∀ (l : List Sleep) (acc : SleepTotals),
      (l.foldl (fun acc sl =>
        match sl.endTime with
        | some e => { acc with totalSeconds := acc.totalSeconds + (e - sl.startTime), completed := acc.completed + 1 }
        | none => { acc with totalSeconds := acc.totalSeconds + (now - sl.startTime), ongoing := acc.ongoing + 1 }) acc).totalSeconds
      = acc.totalSeconds + (l.map (sessionSeconds now)).sum := by
    intro l
    induction l with
    | nil => simp
    | cons sl ls ih =>
      intro acc
      rw [List.foldl_cons, List.map_cons, List.sum_cons]
      cases h : sl.endTime with
      | some e =>
        rw [ih]
        simp only [h, sessionSeconds]
        ring
      | none =>
        rw [ih]
        simp only [h, sessionSeconds]
        ring
  constructor
  · unfold get_sleep_duration
    rw [key]
    simp
  · intro sl hopen now₁ now₂ hlt
    simp only [sessionSeconds, hopen]
    linarith

/-- C8 witness: the strict-increase clause at a concrete open session. -/
theorem totalDuration_open_monotone_witness :
    sessionSeconds 0 ⟨1, 1, 0, none⟩ < sessionSeconds 1 ⟨1, 1, 0, none⟩ :=
  (totalDuration_eq_sum_and_open_monotone Store.empty 1 0 0 0).2
    ⟨1, 1, 0, none⟩ rfl 0 1 (by norm_num)

/-- C9: every event-store operation executed at an instant `now` no
earlier than every timestamp already in the store preserves the
invariant that a CLOSED session has `end_time ≥ start_time` (sessions
are created OPEN with `start_time = now` and closed only by setting
`end_time` to the — later or equal — current instant), together with
the bound that all stored timestamps are at most `now`. -/
theorem session_invariant_preserved (s : Store) (now : ℚ) (s' : Store)
    (hstep : Step s now s') (hinv : SessionInv s) (hle : TimesLE s now) :
    SessionInv s' ∧ TimesLE s' now := by
  obtain ⟨hif, his, hic⟩ := hinv
  obtain ⟨hlf, hls, hld, hlc⟩ := hle
  cases hstep with
  | startFeeding fid b ft =>
    refine ⟨⟨?_, his, hic⟩, ⟨?_, hls, hld, hlc⟩⟩
    · intro f hmem e he
      rcases List.mem_append.mp hmem with h | h
      · exact hif f h e he
      · simp only [List.mem_singleton] at h
        subst h
        simp at he
    · intro f hmem
      rcases List.mem_append.mp hmem with h | h
      · exact hlf f h
      · simp only [List.mem_singleton] at h
        subst h
        exact ⟨le_refl now, by simp⟩
  | endFeeding fid amt =>
    refine ⟨⟨?_, his, hic⟩, ⟨?_, hls, hld, hlc⟩⟩
    · intro f hmem e he
      rcases mem_endFeedingList hmem with h | ⟨x, hx, _, hst, hend⟩
      · exact hif f h e he
      · rw [he] at hend
        obtain rfl : e = now := by simpa using hend
        rw [hst]
        exact (hlf x hx).1
    · intro f hmem
      rcases mem_endFeedingList hmem with h | ⟨x, hx, _, hst, hend⟩
      · exact hlf f h
      · refine ⟨hst ▸ (hlf x hx).1, ?_⟩
        intro e he
        rw [he] at hend
        obtain rfl : e = now := by simpa using hend
        exact le_refl _
  | startSleep sid b =>
    refine ⟨⟨hif, ?_, hic⟩, ⟨hlf, ?_, hld, hlc⟩⟩
    · intro sl hmem e he
      rcases List.mem_append.mp hmem with h | h
      · exact his sl h e he
      · simp only [List.mem_singleton] at h
        subst h
        simp at he
    · intro sl hmem
      rcases List.mem_append.mp hmem with h | h
      · exact hls sl h
      · simp only [List.mem_singleton] at h
        subst h
        exact ⟨le_refl now, by simp⟩
  | endSleep sid =>
    refine ⟨⟨hif, ?_, hic⟩, ⟨hlf, ?_, hld, hlc⟩⟩
    · intro sl hmem e he
      rcases mem_endSleepList hmem with h | ⟨x, hx, _, hst, hend⟩
      · exact his sl h e he
      · rw [he] at hend
        obtain rfl : e = now := by simpa using hend
        rw [hst]
        exact (hls x hx).1
    · intro sl hmem
      rcases mem_endSleepList hmem with h | ⟨x, hx, _, hst, hend⟩
      · exact hls sl h
      · refine ⟨hst ▸ (hls x hx).1, ?_⟩
        intro e he
        rw [he] at hend
        obtain rfl : e = now := by simpa using hend
        exact le_refl _
  | logDiaper did b dt =>
    refine ⟨⟨hif, his, hic⟩, ⟨hlf, hls, ?_, hlc⟩⟩
    intro d hmem
    rcases List.mem_append.mp hmem with h | h
    · exact hld d h
    · simp only [List.mem_singleton] at h
      subst h
      exact le_refl now
  | startCrying cid b =>
    refine ⟨⟨hif, his, ?_⟩, ⟨hlf, hls, hld, ?_⟩⟩
    · intro c hmem e he
      rcases List.mem_append.mp hmem with h | h
      · exact hic c h e he
      · simp only [List.mem_singleton] at h
        subst h
        simp at he
    · intro c hmem
      rcases List.mem_append.mp hmem with h | h
      · exact hlc c h
      · simp only [List.mem_singleton] at h
        subst h
        exact ⟨le_refl now, by simp⟩
  | endCrying cid r =>
    refine ⟨⟨hif, his, ?_⟩, ⟨hlf, hls, hld, ?_⟩⟩
    · intro c hmem e he
      rcases mem_endCryingList hmem with h | ⟨x, hx, _, hst, hend⟩
      · exact hic c h e he
      · rw [he] at hend
        obtain rfl : e = now := by simpa using hend
        rw [hst]
        exact (hlc x hx).1
    · intro c hmem
      rcases mem_endCryingList hmem with h | ⟨x, hx, _, hst, hend⟩
      · exact hlc c h
      · refine ⟨hst ▸ (hlc x hx).1, ?_⟩
        intro e he
        rw [he] at hend
        obtain rfl : e = now := by simpa using hend
        exact le_refl _

/-- C9 witness: starting and then ending a feeding from the empty store
keeps the invariant. -/
theorem session_invariant_preserved_witness :
    SessionInv (start_feeding Store.empty 1 1 .BREAST 0) ∧
    TimesLE (start_feeding Store.empty 1 1 .BREAST 0) 0 :=
  session_invariant_preserved Store.empty 0 _
    (Step.startFeeding Store.empty 0 1 1 .BREAST)
    (by refine ⟨?_, ?_, ?_⟩ <;> simp [Store.empty, SessionInv])
    (by refine ⟨?_, ?_, ?_, ?_⟩ <;> simp [Store.empty, TimesLE])

theorem pickBest_snd (h d a : ℚ) : (pickBest h d a).2 = max (max h d) a := by
  unfold pickBest
  split_ifs <;> simp_all [max_def] <;> split_ifs <;> linarith

theorem secondOf_pickBest (h d a : ℚ) :
    secondOf h d a (pickBest h d a).1 = max (min h d) (min (max h d) a) := by
  unfold pickBest secondOf
  split_ifs <;> simp_all [max_def, min_def] <;> split_ifs <;> linarith

theorem pickBest_fst_hungry_iff (h d a : ℚ) :
    (pickBest h d a).1 = CryingReason.HUNGRY ↔ d ≤ h ∧ a ≤ h := by
  unfold pickBest
  split_ifs <;> simp_all <;> split_ifs <;> simp_all

theorem pickBest_fst_diaper_iff (h d a : ℚ) :
    (pickBest h d a).1 = CryingReason.DIAPER ↔ h < d ∧ a ≤ d := by
  unfold pickBest
  split_ifs <;> simp_all <;> split_ifs <;> simp_all

theorem pickBest_fst_attention_iff (h d a : ℚ) :
    (pickBest h d a).1 = CryingReason.ATTENTION ↔ max h d < a := by
  unfold pickBest
  split_ifs <;> simp_all [max_def] <;> split_ifs <;> simp_all <;> linarith

/-- C2: the confidence returned by `predict` equals
`clamp(30, 95, (max - secondMax) + max/2)` over the three cause scores
(`max` the largest, `secondMax` the second largest), and hence always
lies in `[30, 95]`. -/
theorem confidence_clamp_formula (s : Store) (babyId : Nat) (now : ℚ) :
    ((predict s babyId now).2 =
      min 95 (max 30
        ((max (max (hungerScore (lastFeedingTime s babyId now) now)
                   (diaperScore (lastDiaperTime s babyId now) now))
              (attentionScore (lastSleepEnd s babyId now) now) -
          max (min (hungerScore (lastFeedingTime s babyId now) now)
                   (diaperScore (lastDiaperTime s babyId now) now))
              (min (max (hungerScore (lastFeedingTime s babyId now) now)
                        (diaperScore (lastDiaperTime s babyId now) now))
                   (attentionScore (lastSleepEnd s babyId now) now))) +
         max (max (hungerScore (lastFeedingTime s babyId now) now)
                  (diaperScore (lastDiaperTime s babyId now) now))
             (attentionScore (lastSleepEnd s babyId now) now) / 2))) ∧
    30 ≤ (predict s babyId now).2 ∧ (predict s babyId now).2 ≤ 95 := by
  refine ⟨?_, ?_, ?_⟩
  · simp only [predict]
    rw [pickBest_snd, secondOf_pickBest]
  · simp only [predict]
    exact le_min (by norm_num) (le_max_left 30 _)
  · simp only [predict]
    exact min_le_left 95 _

/-- C4: `predict` is a deterministic function of the three stored
last-event data (last-feeding anchor, last-diaper anchor, last-sleep
end) and the evaluation instant; ties between scores are broken in the
fixed order HUNGRY before DIAPER before ATTENTION — DIAPER wins only
when it strictly beats hunger, ATTENTION only when it strictly beats
both. -/
theorem predict_deterministic_tiebreak :
    (∀ (s₁ s₂ : Store) (b₁ b₂ : Nat) (now : ℚ),
      lastFeedingTime s₁ b₁ now = lastFeedingTime s₂ b₂ now →
      lastDiaperTime s₁ b₁ now = lastDiaperTime s₂ b₂ now →
      lastSleepEnd s₁ b₁ now = lastSleepEnd s₂ b₂ now →
      predict s₁ b₁ now = predict s₂ b₂ now) ∧
    (∀ (s : Store) (babyId : Nat) (now : ℚ),
      ((predict s babyId now).1 = CryingReason.HUNGRY ↔
        diaperScore (lastDiaperTime s babyId now) now ≤
          hungerScore (lastFeedingTime s babyId now) now ∧
        attentionScore (lastSleepEnd s babyId now) now ≤
          hungerScore (lastFeedingTime s babyId now) now) ∧
      ((predict s babyId now).1 = CryingReason.DIAPER ↔
        hungerScore (lastFeedingTime s babyId now) now <
          diaperScore (lastDiaperTime s babyId now) now ∧
        attentionScore (lastSleepEnd s babyId now) now ≤
          diaperScore (lastDiaperTime s babyId now) now) ∧
      ((predict s babyId now).1 = CryingReason.ATTENTION ↔
        max (hungerScore (lastFeedingTime s babyId now) now)
            (diaperScore (lastDiaperTime s babyId now) now) <
          attentionScore (lastSleepEnd s babyId now) now)) := by
  constructor
  · intro s₁ s₂ b₁ b₂ now hf hd hsl
    simp only [predict, hf, hd, hsl]
  · intro s babyId now
    refine ⟨?_, ?_, ?_⟩
    · simp only [predict]
      exact pickBest_fst_hungry_iff _ _ _
    · simp only [predict]
      exact pickBest_fst_diaper_iff _ _ _
    · simp only [predict]
      exact pickBest_fst_attention_iff _ _ _

/-- C4 witness: the determinism clause applied to two stores (here both
empty) with equal extracted last-event data. -/
theorem predict_deterministic_tiebreak_witness :
    predict Store.empty 1 0 = predict Store.empty 2 0 :=
  predict_deterministic_tiebreak.1 Store.empty Store.empty 1 2 0 rfl rfl rfl

/-- C3: for a baby with no prior feeding, sleep or diaper event (crying
episodes may exist), the predictor falls back to the fixed cold-start
scores hunger 90, diaper 80, attention 50, and returns HUNGRY with the
confidence computed from those defaults,
`min 95 (max 30 ((90 - 80) + 90/2)) = 55`. -/
theorem cold_start_defaults (s : Store) (babyId : Nat) (now : ℚ)
    (hf : ∀ f ∈ s.feedings, f.babyId ≠ babyId)
    (hsl : ∀ sl ∈ s.sleeps, sl.babyId ≠ babyId)
    (hd : ∀ d ∈ s.diapers, d.babyId ≠ babyId) :
    hungerScore (lastFeedingTime s babyId now) now = 90 ∧
    diaperScore (lastDiaperTime s babyId now) now = 80 ∧
    attentionScore (lastSleepEnd s babyId now) now = 50 ∧
    predict s babyId now = (CryingReason.HUNGRY, 55) := by
  have hall : ∀ e ∈ get_recent_events s babyId 20 7 now, e.etype = "crying" := by
    intro e he
    rcases eventFrom_of_mem_get_recent_events he with
      ⟨f, hmem, hb, _, rfl⟩ | ⟨sl, hmem, hb, _, rfl⟩ |
      ⟨d, hmem, hb, _, rfl⟩ | ⟨c, hmem, hb, _, rfl⟩
    · exact absurd hb (hf f hmem)
    · exact absurd hb (hsl sl hmem)
    · exact absurd hb (hd d hmem)
    · rfl
  have h1 : lastEventOfType (get_recent_events s babyId 20 7 now) "feeding" = none := by
    apply List.find?_eq_none.mpr
    intro e he
    simp [hall e he]
  have h2 : lastEventOfType (get_recent_events s babyId 20 7 now) "diaper" = none := by
    apply List.find?_eq_none.mpr
    intro e he
    simp [hall e he]
  have h3 : lastEventOfType (get_recent_events s babyId 20 7 now) "sleep" = none := by
    apply List.find?_eq_none.mpr
    intro e he
    simp [hall e he]
  refine ⟨?_, ?_, ?_, ?_⟩ <;>
    norm_num [predict, lastFeedingTime, lastDiaperTime, lastSleepEnd, h1, h2, h3,
      hungerScore, diaperScore, attentionScore, pickBest, secondOf]

/-- C3 witness: a store holding only one crying episode of the baby. -/
theorem cold_start_defaults_witness :
    hungerScore (lastFeedingTime ⟨[], [], [], [⟨1, 1, 0, none, none⟩]⟩ 1 0) 0 = 90 ∧
    diaperScore (lastDiaperTime ⟨[], [], [], [⟨1, 1, 0, none, none⟩]⟩ 1 0) 0 = 80 ∧
    attentionScore (lastSleepEnd ⟨[], [], [], [⟨1, 1, 0, none, none⟩]⟩ 1 0) 0 = 50 ∧
    predict ⟨[], [], [], [⟨1, 1, 0, none, none⟩]⟩ 1 0 = (CryingReason.HUNGRY, 55) :=
  cold_start_defaults _ 1 0 (by simp) (by simp) (by simp)

/-- C1 (counterexample): the predictor's hunger score is *not* computed
from the spec's anchor/boundary.  First divergence: for a CLOSED feeding
(start 0s, end 3600s) evaluated at 10800s, the code scores 84 (elapsed
measured from `start_time`) while the spec formula yields 32 (elapsed
measured from `end_time`).  Second divergence: for an OPEN feeding
(start 0s, same anchor for both) evaluated exactly at the 2.5h
threshold, the code scores 40 (40-ramp at the boundary) while the spec's
"at/above" wording yields 70. -/
theorem hunger_anchor_counterexample :
    hungerScore (lastFeedingTime
        ⟨[⟨1, 1, .BOTTLE, 0, some 3600, none⟩], [], [], []⟩ 1 10800) 10800 = 84 ∧
    hungerScoreSpec ⟨1, 1, .BOTTLE, 0, some 3600, none⟩ 10800 = 32 ∧
    hungerScore (lastFeedingTime
        ⟨[⟨2, 1, .BOTTLE, 0, none, none⟩], [], [], []⟩ 1 9000) 9000 = 40 ∧
    hungerScoreSpec ⟨2, 1, .BOTTLE, 0, none, none⟩ 9000 = 70 := by
  refine ⟨?_, ?_, ?_, ?_⟩ <;>
    norm_num [hungerScore, hungerScoreSpec, lastFeedingTime, lastEventOfType,
      get_recent_events, feedingEvents, sleepEvents, diaperEvents, cryingEvents,
      sortDescBy, insertDescBy, List.filter, List.find?, Event.etype,
      HUNGER_THRESHOLD_HOURS]

/-- C1 (amended): whenever the predictor selects a most-recent feeding
event, the hunger score is the two-segment ramp over the elapsed time
since that feeding's `start_time` (whether or not it is closed):
strictly above the 2.5-hour threshold, `min 100 (70 * elapsed/threshold)`;
at or below it, `max 0 (40 * elapsed/threshold)`. -/
theorem hunger_ramp_uses_start_time (s : Store) (babyId : Nat) (now : ℚ)
    (ev : Event) (f : Feeding)
    (hev : lastEventOfType (get_recent_events s babyId 20 7 now) "feeding" = some ev)
    (hdata : ev.data = .feeding f) :
    hungerScore (lastFeedingTime s babyId now) now =
      (if (now - f.startTime) / 3600 > HUNGER_THRESHOLD_HOURS
       then min 100 (((now - f.startTime) / 3600 / HUNGER_THRESHOLD_HOURS) * 70)
       else max 0 (((now - f.startTime) / 3600 / HUNGER_THRESHOLD_HOURS) * 40)) := by
  have hmem : ev ∈ get_recent_events s babyId 20 7 now :=
    List.mem_of_find?_eq_some hev
  have htime : ev.time = f.startTime := by
    rcases eventFrom_of_mem_get_recent_events hmem with
      ⟨f', _, _, _, heq⟩ | ⟨sl, _, _, _, heq⟩ |
      ⟨d, _, _, _, heq⟩ | ⟨c, _, _, _, heq⟩ <;> subst heq <;>
      simp only at hdata
    · obtain rfl : f' = f := by simpa using hdata
      rfl
    · simp at hdata
    · simp at hdata
    · simp at hdata
  unfold lastFeedingTime
  rw [hev]
  simp only [Option.map_some', hungerScore, htime]

/-- C1 witness: the amended ramp on a store with one OPEN feeding started
at 0s, evaluated one hour later. -/
theorem hunger_ramp_uses_start_time_witness :
    hungerScore (lastFeedingTime
        ⟨[⟨1, 1, .BOTTLE, 0, none, none⟩], [], [], []⟩ 1 3600) 3600 =
      (if ((3600:ℚ) - 0) / 3600 > HUNGER_THRESHOLD_HOURS
       then min 100 ((((3600:ℚ) - 0) / 3600 / HUNGER_THRESHOLD_HOURS) * 70)
       else max 0 ((((3600:ℚ) - 0) / 3600 / HUNGER_THRESHOLD_HOURS) * 40)) :=
  hunger_ramp_uses_start_time ⟨[⟨1, 1, .BOTTLE, 0, none, none⟩], [], [], []⟩ 1 3600
    ⟨0, .feeding ⟨1, 1, .BOTTLE, 0, none, none⟩⟩ ⟨1, 1, .BOTTLE, 0, none, none⟩
    (by norm_num [lastEventOfType, get_recent_events, feedingEvents, sleepEvents,
      diaperEvents, cryingEvents, sortDescBy, insertDescBy, List.filter,
      List.find?, Event.etype]) rfl

/-- C10: a history can contain a feeding record and still drive the
predictor to its cold-start hunger default, because the lookup only sees
the 20 most recent events of the last 7 days: a feeding 8 days old is
invisible, so `predict` scores hunger 90 as if no feeding existed; and a
feeding inside the window is equally invisible when 20 newer events of
other kinds crowd it out of the merged top-20 list. -/
theorem predictor_window_blindspot :
    (⟨[⟨1, 1, .BOTTLE, 0, none, none⟩], [], [], []⟩ : Store).feedings ≠ [] ∧
    lastFeedingTime ⟨[⟨1, 1, .BOTTLE, 0, none, none⟩], [], [], []⟩ 1 (8 * 86400) = none ∧
    hungerScore (lastFeedingTime
        ⟨[⟨1, 1, .BOTTLE, 0, none, none⟩], [], [], []⟩ 1 (8 * 86400)) (8 * 86400) = 90 ∧
    predict ⟨[⟨1, 1, .BOTTLE, 0, none, none⟩], [], [], []⟩ 1 (8 * 86400) =
      (CryingReason.HUNGRY, 55) ∧
    (⟨[⟨21, 1, .BOTTLE, 0, none, none⟩], [], [⟨1, 1, .WET, 60⟩, ⟨2, 1, .WET, 61⟩, ⟨3, 1, .WET, 62⟩, ⟨4, 1, .WET, 63⟩, ⟨5, 1, .WET, 64⟩, ⟨6, 1, .WET, 65⟩, ⟨7, 1, .WET, 66⟩, ⟨8, 1, .WET, 67⟩, ⟨9, 1, .WET, 68⟩, ⟨10, 1, .WET, 69⟩, ⟨11, 1, .WET, 70⟩, ⟨12, 1, .WET, 71⟩, ⟨13, 1, .WET, 72⟩, ⟨14, 1, .WET, 73⟩, ⟨15, 1, .WET, 74⟩, ⟨16, 1, .WET, 75⟩, ⟨17, 1, .WET, 76⟩, ⟨18, 1, .WET, 77⟩, ⟨19, 1, .WET, 78⟩, ⟨20, 1, .WET, 79⟩], []⟩ : Store).feedings ≠ [] ∧
    lastFeedingTime ⟨[⟨21, 1, .BOTTLE, 0, none, none⟩], [], [⟨1, 1, .WET, 60⟩, ⟨2, 1, .WET, 61⟩, ⟨3, 1, .WET, 62⟩, ⟨4, 1, .WET, 63⟩, ⟨5, 1, .WET, 64⟩, ⟨6, 1, .WET, 65⟩, ⟨7, 1, .WET, 66⟩, ⟨8, 1, .WET, 67⟩, ⟨9, 1, .WET, 68⟩, ⟨10, 1, .WET, 69⟩, ⟨11, 1, .WET, 70⟩, ⟨12, 1, .WET, 71⟩, ⟨13, 1, .WET, 72⟩, ⟨14, 1, .WET, 73⟩, ⟨15, 1, .WET, 74⟩, ⟨16, 1, .WET, 75⟩, ⟨17, 1, .WET, 76⟩, ⟨18, 1, .WET, 77⟩, ⟨19, 1, .WET, 78⟩, ⟨20, 1, .WET, 79⟩], []⟩ 1 1000 = none ∧
    hungerScore (lastFeedingTime ⟨[⟨21, 1, .BOTTLE, 0, none, none⟩], [], [⟨1, 1, .WET, 60⟩, ⟨2, 1, .WET, 61⟩, ⟨3, 1, .WET, 62⟩, ⟨4, 1, .WET, 63⟩, ⟨5, 1, .WET, 64⟩, ⟨6, 1, .WET, 65⟩, ⟨7, 1, .WET, 66⟩, ⟨8, 1, .WET, 67⟩, ⟨9, 1, .WET, 68⟩, ⟨10, 1, .WET, 69⟩, ⟨11, 1, .WET, 70⟩, ⟨12, 1, .WET, 71⟩, ⟨13, 1, .WET, 72⟩, ⟨14, 1, .WET, 73⟩, ⟨15, 1, .WET, 74⟩, ⟨16, 1, .WET, 75⟩, ⟨17, 1, .WET, 76⟩, ⟨18, 1, .WET, 77⟩, ⟨19, 1, .WET, 78⟩, ⟨20, 1, .WET, 79⟩], []⟩ 1 1000) 1000 = 90 := by
  have hdec : (decide ("diaper" = "feeding")) = false := by rfl
  refine ⟨by simp, ?_, ?_, ?_, by simp, ?_, ?_⟩ <;>
    norm_num [hdec, predict, lastFeedingTime, lastDiaperTime, lastSleepEnd,
      lastEventOfType, get_recent_events, feedingEvents, sleepEvents,
      diaperEvents, cryingEvents, sortDescBy, insertDescBy, List.filter,
      List.find?, Event.etype, hungerScore, diaperScore,
      attentionScore, pickBest, secondOf]

end BabyWhyCry
